import Mathlib

/-!
Shallow embedding of the NextBid authentication gateway: the JWT token
service, the auth and admin middleware, the tradeline routing stack, the
login and internal credentials endpoints of src/server.js, the
header-trust admin gate of src/middleware/gateway-auth.js, and the
credential rotation pool functions of src/database/auth-schema.sql.
Machine state that the handlers read (cookies, headers, database rows) is
passed explicitly; database queries are modelled as lookup functions.
-/

/-- Identity fields of an active row of the nextbid_users table, as read by
the login and refresh queries of src/server.js. -/
structure Identity where
  id : Nat
  email : String
  name : String
  company_id : Nat
  domain : String
  role : String
deriving DecidableEq

/-- JWT payload as a record of optional claims. A claim a payload does not
carry is none. generateTokens signs an access payload holding the six
identity fields and no type claim, and a refresh payload holding only the
user id and the claim type = refresh. -/
structure Claims where
  id : Option Nat
  email : Option String
  name : Option String
  company_id : Option Nat
  domain : Option String
  role : Option String
  type : Option String
deriving DecidableEq

/-- Payload of the access token built by generateTokens, src/server.js
lines 64 to 73: the six identity fields and nothing else, in particular no
type claim. -/
def accessClaims (u : Identity) : Claims :=
  { id := some u.id, email := some u.email, name := some u.name,
    company_id := some u.company_id, domain := some u.domain,
    role := some u.role, type := none }

/-- Payload of the refresh token built by generateTokens, src/server.js
line 74: only the user id and type = refresh. -/
def refreshClaims (uid : Nat) : Claims :=
  { id := some uid, email := none, name := none, company_id := none,
    domain := none, role := none, type := some "refresh" }

/-- A value held in an auth cookie: either a JWT signed with some secret
and carrying an expiry timestamp (seconds), or a string that does not
parse as a JWT. -/
inductive Token where
  | signed (claims : Claims) (secret : String) (exp : Nat)
  | malformed (raw : String)
deriving DecidableEq

/-- generateTokens, src/server.js lines 63 to 77: jwt.sign of the access
payload with a one hour expiry and of the refresh payload with a seven day
expiry, both under the same secret. -/
def generateTokens (user : Identity) (secret : String) (now : Nat) : Token × Token :=
  (Token.signed (accessClaims user) secret (now + 3600),
   Token.signed (refreshClaims user.id) secret (now + 604800))

/-- verifyToken, src/server.js lines 82 to 88: jwt.verify wrapped in
try/catch. A missing cookie, a malformed token, a wrong signature and an
expired token all return none; a good token returns its claims. -/
def verifyToken : Option Token → String → Nat → Option Claims
  | none, _, _ => none
  | some (Token.malformed _), _, _ => none
  | some (Token.signed c s e), secret, now =>
      if s = secret ∧ now < e then some c else none

/-- The two auth cookies of a request; none models an absent cookie. -/
structure Cookies where
  accessToken : Option Token
  refreshToken : Option Token
deriving DecidableEq

/-- Outcome of requireAuth: ok carries the claims attached as req.user and,
when setAuthCookies ran during a refresh, the fresh pair written to the two
cookies; the two rejection outcomes are the 401 JSON answer and the
redirect to the login page. -/
inductive AuthResult where
  | ok (user : Claims) (newCookies : Option (Token × Token))
  | unauthorized
  | redirectLogin
deriving DecidableEq

/-- The test req.path.startsWith with the literal /api/, expressed over the
character list of the path (the JS semantics: the first five characters
equal /api/). -/
def isApiPath (path : String) : Bool :=
  path.toList.take 5 == "/api/".toList

/-- The rejection branch of requireAuth, src/server.js lines 151 to 158:
API paths receive 401, browser paths are redirected to the login page. -/
def rejectAuth (path : String) : AuthResult :=
  if isApiPath path then AuthResult.unauthorized else AuthResult.redirectLogin

/-- requireAuth, src/server.js lines 121 to 163. db models the supabase
query for a user by id filtered to is_active = true (single row). The
access token is verified first; on failure, a present refresh token with
type = refresh and a live directory row triggers generateTokens plus
setAuthCookies, and the fresh access token claims become req.user. -/
def requireAuth (c : Cookies) (secret : String) (now : Nat)
    (db : Nat → Option Identity) (path : String) : AuthResult :=
  match verifyToken c.accessToken secret now with
  | some user => AuthResult.ok user none
  | none =>
    match c.refreshToken with
    | none => rejectAuth path
    | some rt =>
      match verifyToken (some rt) secret now with
      | none => rejectAuth path
      | some refreshPayload =>
        if refreshPayload.type = some "refresh" then
          match refreshPayload.id.bind db with
          | some dbUser =>
            let tokens := generateTokens dbUser secret now
            match verifyToken (some tokens.1) secret now with
            | some user => AuthResult.ok user (some tokens)
            | none => rejectAuth path
          | none => rejectAuth path
        else rejectAuth path

/-- Outcome of an admin gate. -/
inductive AdminResult where
  | admitted
  | forbidden
  | unauthorized
deriving DecidableEq

/-- requireAdmin, src/server.js lines 169 to 174: admit when req.user is
set and its domain is engine or its role is superadmin, else answer 403. -/
def requireAdmin (user : Option Claims) : AdminResult :=
  match user with
  | some u =>
      if u.domain = some "engine" ∨ u.role = some "superadmin" then
        AdminResult.admitted
      else AdminResult.forbidden
  | none => AdminResult.forbidden

/-- The inbound headers read by src/middleware/gateway-auth.js; an absent
header is none. -/
structure Headers where
  xGatewayAuth : Option String
  xUserId : Option String
  xUserEmail : Option String
  xUserName : Option String
  xUserRole : Option String
  xUserDomain : Option String
  xCompanyId : Option String
deriving DecidableEq

/-- The user object assembled from trust headers by getUser. -/
structure GatewayUser where
  id : Option String
  email : Option String
  name : Option String
  role : Option String
  domain : Option String
  company_id : Option String
deriving DecidableEq

/-- getUser, src/middleware/gateway-auth.js lines 32 to 45: null unless the
gateway marker header is exactly the string true. -/
def getUser (h : Headers) : Option GatewayUser :=
  if h.xGatewayAuth = some "true" then
    some { id := h.xUserId, email := h.xUserEmail, name := h.xUserName,
           role := h.xUserRole, domain := h.xUserDomain,
           company_id := h.xCompanyId }
  else none

/-- requireAdmin of src/middleware/gateway-auth.js lines 69 to 82: 401
without a gateway user, 403 when the role is not superadmin and the domain
is not engine, else admit. -/
def gwRequireAdmin (h : Headers) : AdminResult :=
  match getUser h with
  | none => AdminResult.unauthorized
  | some user =>
      if user.role ≠ some "superadmin" ∧ user.domain ≠ some "engine" then
        AdminResult.forbidden
      else AdminResult.admitted

/-- The static tradelinePorts table, src/server.js lines 647 to 653. -/
def tradelinePorts : List (String × Nat) :=
  [("security", 3002), ("administrative", 3003), ("facilities", 3004),
   ("electrical", 3005), ("logistics", 3006), ("lowvoltage", 3007),
   ("landscaping", 3008), ("hvac", 3009), ("plumbing", 3010),
   ("janitorial", 3011), ("support", 3012), ("waste", 3013),
   ("construction", 3014), ("roofing", 3015), ("painting", 3016),
   ("flooring", 3017), ("demolition", 3018), ("environmental", 3019),
   ("concrete", 3020), ("fencing", 3021)]

/-- Observable answer of the tradelines routing stack. -/
inductive Response where
  | status (code : Nat) (body : String)
  | redirect (loc : String)
  | proxy (port : Nat) (user : Claims) (newCookies : Option (Token × Token))
deriving DecidableEq

/-- The stack mounted at /tradelines/:name, src/server.js lines 655 to 664:
requireAuth runs first, so only an authenticated request reaches the slug
lookup, which answers 404 for a slug outside the table and proxies to the
mapped port otherwise. path is req.path as requireAuth sees it, slug is
req.params.name. -/
def tradelinesRoute (c : Cookies) (secret : String) (now : Nat)
    (db : Nat → Option Identity) (path slug : String) : Response :=
  match requireAuth c secret now db path with
  | AuthResult.ok user newCookies =>
    match tradelinePorts.lookup slug with
    | none => Response.status 404 "Unknown tradeline"
    | some port => Response.proxy port user newCookies
  | AuthResult.unauthorized => Response.status 401 "Unauthorized"
  | AuthResult.redirectLogin => Response.redirect "/login"

/-- One row of nextbid_company_credentials, src/database/auth-schema.sql
lines 43 to 61. Columns that carry a SQL default and are only ever written
with non-null values (is_configured, status, the three counters, the two
timestamps), and the id and join key, are modelled non-nullable; the six
data columns with no default stay Option, matching the columns that can be
NULL in a row that the pool queries select. -/
structure CredRow where
  id : Nat
  company_id : Nat
  source : String
  username : Option String
  password_encrypted : Option String
  api_key_encrypted : Option String
  extra_data : Option String
  is_configured : Bool
  status : String
  last_used : Option Nat
  last_error : Option String
  use_count : Nat
  success_count : Nat
  failure_count : Nat
  created_at : Nat
  updated_at : Nat
deriving DecidableEq

/-- A row of nextbid_companies, restricted to the fields the pool reads. -/
structure Company where
  id : Nat
  name : String
  is_active : Bool
deriving DecidableEq

/-- mark_credential_failure, src/database/auth-schema.sql lines 140 to 142.
Every SET expression of a SQL UPDATE reads the old row, so the CASE tests
the failure count before the increment. -/
def mark_credential_failure (p_error : String) (now : Nat) (r : CredRow) : CredRow :=
  { r with failure_count := r.failure_count + 1,
           last_error := some p_error,
           status := if 5 ≤ r.failure_count then "invalid" else "pending",
           updated_at := now }

/-- n consecutive mark_credential_failure calls on one record. -/
def iterateFailures (p_error : String) (now : Nat) : Nat → CredRow → CredRow
  | 0, r => r
  | n + 1, r => iterateFailures p_error now n (mark_credential_failure p_error now r)

/-- The WHERE clause of the SELECT inside get_next_credential, line 127:
matching source, configured, status valid or pending, and the joined
company active. -/
def isCandidate (companies : List Company) (p_source : String) (r : CredRow) : Bool :=
  (r.source == p_source) && r.is_configured &&
  (r.status == "valid" || r.status == "pending") &&
  companies.any (fun c => (c.id == r.company_id) && c.is_active)

/-- The sort of line 128, ORDER BY cc.last_used NULLS FIRST, cc.use_count
ASC, as a strict comparison: a null last_used sorts before any timestamp,
timestamps sort ascending, and ties fall back to the lower use_count. -/
def credLT (a b : CredRow) : Bool :=
  match a.last_used, b.last_used with
  | none, none => decide (a.use_count < b.use_count)
  | none, some _ => true
  | some _, none => false
  | some x, some y =>
      if x < y then true
      else if x = y then decide (a.use_count < b.use_count)
      else false

/-- LIMIT 1 over the ordered candidates: the first minimal row under
credLT, none when no candidate exists. -/
def selectMin (l : List CredRow) : Option CredRow :=
  l.foldl (fun acc r =>
    match acc with
    | none => some r
    | some b => if credLT r b then some r else acc) none

/-- The plpgsql test v_cred IS NOT NULL of line 129 applied to a RECORD
variable: per the SQL row comparison rules it holds only when every
selected column is non-null. Under this model the columns that can be null
in a selected row are exactly the six Option columns. -/
def rowIsNotNull (r : CredRow) : Bool :=
  r.username.isSome && r.password_encrypted.isSome &&
  r.api_key_encrypted.isSome && r.extra_data.isSome &&
  r.last_used.isSome && r.last_error.isSome

/-- The row type returned by get_next_credential. -/
structure CredReturn where
  id : Nat
  company_id : Nat
  username : Option String
  password_encrypted : Option String
  api_key_encrypted : Option String
deriving DecidableEq

/-- get_next_credential, src/database/auth-schema.sql lines 121 to 134:
select the best candidate for the source; if the selected record passes
the IS NOT NULL row test, stamp last_used = NOW() and bump use_count on
that row and return its credential columns, else return no row and leave
the pool untouched. -/
def get_next_credential (creds : List CredRow) (companies : List Company)
    (p_source : String) (now : Nat) : Option CredReturn × List CredRow :=
  match selectMin (creds.filter (isCandidate companies p_source)) with
  | none => (none, creds)
  | some v =>
      if rowIsNotNull v then
        (some { id := v.id, company_id := v.company_id, username := v.username,
                password_encrypted := v.password_encrypted,
                api_key_encrypted := v.api_key_encrypted },
         creds.map (fun r =>
           if r.id = v.id then
             { r with last_used := some now, use_count := r.use_count + 1 }
           else r))
      else (none, creds)

/-- Answer of the internal credentials endpoint. -/
inductive ApiResp where
  | status (code : Nat) (body : String)
  | credsOk (source : String) (username password api_key : Option String)
deriving DecidableEq

/-- GET /api/credentials/:companyId/:source, src/server.js lines 534 to
566: a shared secret header that differs from the internal key answers 401
before any lookup; a missing row answers 404; otherwise the stored
username, password and api key are returned. lookup models the supabase
query by company and source. -/
def apiCredentials (headerApiKey internalApiKey : Option String)
    (lookup : String → String → Option CredRow)
    (companyId source : String) : ApiResp :=
  if headerApiKey ≠ internalApiKey then ApiResp.status 401 "Invalid API key"
  else
    match lookup companyId source with
    | none => ApiResp.status 404 "Credentials not found"
    | some credential =>
        ApiResp.credsOk source credential.username
          credential.password_encrypted credential.api_key_encrypted

/-- A nextbid_users row as the login handler reads it. -/
structure UserRec where
  id : Nat
  email : String
  name : String
  company_id : Nat
  domain : String
  role : String
  password_hash : String
deriving DecidableEq

/-- Projection of a directory row to the identity signed into tokens. -/
def toIdentity (u : UserRec) : Identity :=
  { id := u.id, email := u.email, name := u.name, company_id := u.company_id,
    domain := u.domain, role := u.role }

/-- The JS toLowerCase on one ASCII character. -/
def lowerChar (c : Char) : Char :=
  if 65 ≤ c.toNat ∧ c.toNat ≤ 90 then Char.ofNat (c.toNat + 32) else c

/-- The JS email.toLowerCase() applied before the directory lookup. -/
def lowerString (s : String) : String := String.mk (s.toList.map lowerChar)

/-- Observable answer of the login endpoint: the rendered login page with
an optional error message, or a redirect carrying the two cookies set by
setAuthCookies. -/
inductive LoginResp where
  | renderLogin (error : Option String)
  | redirectWith (loc : String) (accessToken refreshToken : Token)
deriving DecidableEq

/-- POST /login, src/server.js lines 208 to 261. db models the supabase
query for an active user by lowercased email; checkPw models
bcrypt.compare against the stored hash. Both failure branches render the
login page with the same message; success issues tokens, sets both cookies
and redirects by domain and role. -/
def postLogin (db : String → Option UserRec) (checkPw : String → String → Bool)
    (secret : String) (now : Nat) (email password : String) : LoginResp :=
  match db (lowerString email) with
  | none => LoginResp.renderLogin (some "Invalid email or password")
  | some user =>
      if checkPw password user.password_hash then
        let tokens := generateTokens (toIdentity user) secret now
        LoginResp.redirectWith
          (if user.domain = "engine" ∨ user.role = "superadmin" then "/dashboard"
           else "/opportunities")
          tokens.1 tokens.2
      else LoginResp.renderLogin (some "Invalid email or password")

/-- A sample portal user identity used by concrete instances. -/
def uPortal : Identity :=
  { id := 1, email := "alice@nextbid.test", name := "Alice", company_id := 7,
    domain := "portal", role := "user" }

/-- A sample superadmin identity whose domain is portal. -/
def uSuper : Identity :=
  { id := 2, email := "root@nextbid.test", name := "Root", company_id := 1,
    domain := "portal", role := "superadmin" }

/-- An empty user directory. -/
def dbNone : Nat → Option Identity := fun _ => none

/-- A sample active company owning pool credentials. -/
def acme : Company := { id := 1, name := "Acme", is_active := true }

/-- A freshly configured pending credential: never used, never failed, all
data columns present except last_used (never borrowed) and with last_error
filled in so that only last_used is null among the Option columns. -/
def freshCred : CredRow :=
  { id := 11, company_id := 1, source := "sam_gov", username := some "user1",
    password_encrypted := some "pw1", api_key_encrypted := some "key1",
    extra_data := some "x", is_configured := true, status := "pending",
    last_used := none, last_error := some "", use_count := 0,
    success_count := 0, failure_count := 0, created_at := 0, updated_at := 0 }

/-- A credential like freshCred already used at time 10. -/
def credT1 : CredRow := { freshCred with id := 12, last_used := some 10 }

/-- A credential like freshCred already used at time 20. -/
def credT2 : CredRow := { freshCred with id := 13, last_used := some 20 }

/-- A credential demoted to invalid after repeated failures. -/
def invCred : CredRow :=
  { freshCred with
    id := 14, status := "invalid", failure_count := 6,
    last_error := some "login failed" }

/-- A directory holding only the sample portal user under id 1. -/
def dbAlice : Nat → Option Identity := fun i => if i = 1 then some uPortal else none

/-- A stored pool with one credential row for company c1 and source
sam_gov. -/
def lookupC1 : String → String → Option CredRow :=
  fun c s => if c = "c1" ∧ s = "sam_gov" then some freshCred else none

/-- A directory row for an active user bob. -/
def bobRec : UserRec :=
  { id := 5, email := "bob@nextbid.test", name := "Bob", company_id := 9,
    domain := "portal", role := "owner", password_hash := "h1" }

/-- A directory holding only bob, keyed by lowercased email. -/
def dbBob : String → Option UserRec :=
  fun s => if s = "bob@nextbid.test" then some bobRec else none

/-- A password check that rejects every password. -/
def pwNever : String → String → Bool := fun _ _ => false

/-- Helper: a record whose status is invalid never satisfies the candidate
filter of get_next_credential. -/
theorem invalid_status_not_candidate (companies : List Company)
    (p_source : String) (r : CredRow) (h : r.status = "invalid") :
    isCandidate companies p_source r = false := by
  simp [isCandidate, h]

/-- Helper: when every pool record has status invalid, get_next_credential
finds no candidate and returns no row, leaving the pool unchanged. -/
theorem all_invalid_select_none (creds : List CredRow)
    (companies : List Company) (s : String) (now : Nat)
    (h : ∀ c ∈ creds, c.status = "invalid") :
    get_next_credential creds companies s now = (none, creds) := by
  have hfil : creds.filter (isCandidate companies s) = [] := by
    refine List.filter_eq_nil_iff.mpr ?_
    intro a ha
    simp [invalid_status_not_candidate companies s a (h a ha)]
  simp [get_next_credential, hfil, selectMin]

/-- C1 counterexample: five consecutive mark_credential_failure calls on a
record whose failure_count starts at 0 leave failure_count = 5 but status
pending, not invalid, because the CASE inside the UPDATE reads the failure
count of the old row, before the increment. -/
theorem c1_five_failures_leave_pending :
    (iterateFailures "login failed" 50 5 freshCred).failure_count = 5 ∧
    (iterateFailures "login failed" 50 5 freshCred).status = "pending" ∧
    (iterateFailures "login failed" 50 5 freshCred).status ≠ "invalid" := by
  decide

/-- C1 (amended): mark_credential_failure increments failure_count and
records the error, and it sets status to invalid exactly when the
pre-update failure_count is at least 5; consequently the status becomes
invalid on the sixth consecutive call (not the fifth), and an invalid
record is excluded from selection for its source: when only invalid
records remain in the pool, selection returns no credential rather than
falling back to one of them. -/
theorem c1_failure_threshold_amended (r : CredRow) (e : String) (t : Nat) :
    (mark_credential_failure e t r).failure_count = r.failure_count + 1 ∧
    (mark_credential_failure e t r).last_error = some e ∧
    ((mark_credential_failure e t r).status = "invalid" ↔ 5 ≤ r.failure_count) ∧
    (iterateFailures e t 6 r).status = "invalid" ∧
    (∀ creds companies s now, (∀ c ∈ creds, c.status = "invalid") →
      get_next_credential creds companies s now = (none, creds)) := by
  refine ⟨rfl, rfl, ?_, ?_, fun creds companies s now h =>
    all_invalid_select_none creds companies s now h⟩
  · by_cases h : 5 ≤ r.failure_count <;> simp [mark_credential_failure, h]
  · simp only [iterateFailures, mark_credential_failure]
    simp

/-- C1 witness: the amended theorem applied to the fresh sample credential
and to a pool holding only an invalid record. -/
theorem c1_failure_threshold_witness :
    (mark_credential_failure "bad login" 9 freshCred).failure_count = 1 ∧
    (mark_credential_failure "bad login" 9 freshCred).last_error = some "bad login" ∧
    ((mark_credential_failure "bad login" 9 freshCred).status = "invalid" ↔
      5 ≤ freshCred.failure_count) ∧
    (iterateFailures "bad login" 9 6 freshCred).status = "invalid" ∧
    get_next_credential [invCred] [acme] "sam_gov" 100 = (none, [invCred]) := by
  obtain ⟨h1, h2, h3, h4, h5⟩ := c1_failure_threshold_amended freshCred "bad login" 9
  exact ⟨h1, h2, h3, h4, h5 [invCred] [acme] "sam_gov" 100 (by decide)⟩

/-- C7 code bug: for the pool of the claim (three configured pending
credentials of one active company with last_used null, 10 and 20) the
ORDER BY picks the never-used record, but the plpgsql guard v_cred IS NOT
NULL is false on it because its last_used column is null, so
get_next_credential returns no row and updates nothing; with the two
fully-populated records alone the same function does return the older one,
showing the guard alone defeats the never-used case. -/
theorem c7_get_next_credential_null_guard_bug :
    selectMin (List.filter (isCandidate [acme] "sam_gov")
      [freshCred, credT1, credT2]) = some freshCred ∧
    rowIsNotNull freshCred = false ∧
    get_next_credential [freshCred, credT1, credT2] [acme] "sam_gov" 100 =
      (none, [freshCred, credT1, credT2]) ∧
    (get_next_credential [credT1, credT2] [acme] "sam_gov" 100).1 =
      some { id := 12, company_id := 1, username := some "user1",
             password_encrypted := some "pw1", api_key_encrypted := some "key1" } := by
  decide

/-- C2 counterexample: the issued access token carries no type claim, and
presenting the issued refresh token in the accessToken cookie position
authenticates the request: requireAuth answers ok with the refresh claims,
whose id is the id of the user, instead of rejecting the request. -/
theorem c2_refresh_token_accepted_as_access :
    (accessClaims uPortal).type = none ∧
    requireAuth { accessToken := some (generateTokens uPortal "sec" 0).2,
                  refreshToken := none } "sec" 0 dbNone "/dashboard" =
      AuthResult.ok (refreshClaims uPortal.id) none ∧
    (refreshClaims uPortal.id).id = some uPortal.id := by
  decide

/-- C2 (amended): only the refresh token carries a type discriminator, the
access token carries none. The refresh path accepts a token only when its
type claim is refresh, so an unexpired access token presented in the
refreshToken cookie position is rejected; but access verification never
inspects the type claim, so an unexpired refresh token presented in the
accessToken cookie position authenticates the request with the claims id
and type = refresh. -/
theorem c2_type_discriminator_amended (u : Identity) (secret : String)
    (now t : Nat) (db : Nat → Option Identity) (path : String) :
    (accessClaims u).type = none ∧
    (refreshClaims u.id).type = some "refresh" ∧
    (t < now + 604800 →
      requireAuth { accessToken := some (generateTokens u secret now).2,
                    refreshToken := none } secret t db path =
        AuthResult.ok (refreshClaims u.id) none) ∧
    (t < now + 3600 →
      requireAuth { accessToken := none,
                    refreshToken := some (generateTokens u secret now).1 }
        secret t db path = rejectAuth path) := by
  refine ⟨rfl, rfl, fun h => ?_, fun h => ?_⟩
  · simp [requireAuth, generateTokens, verifyToken, h]
  · simp [requireAuth, generateTokens, verifyToken, h, accessClaims]

/-- C2 witness: the amended theorem at the sample portal user, with both
substitution directions evaluated at time 5. -/
theorem c2_type_discriminator_witness :
    requireAuth { accessToken := some (generateTokens uPortal "sec" 0).2,
                  refreshToken := none } "sec" 5 dbNone "/profile" =
      AuthResult.ok (refreshClaims uPortal.id) none ∧
    requireAuth { accessToken := none,
                  refreshToken := some (generateTokens uPortal "sec" 0).1 }
      "sec" 5 dbNone "/profile" = rejectAuth "/profile" := by
  obtain ⟨_, _, h3, h4⟩ :=
    c2_type_discriminator_amended uPortal "sec" 0 5 dbNone "/profile"
  exact ⟨h3 (by decide), h4 (by decide)⟩

/-- C3 counterexample: for the slug nosuch, which is outside the tradeline
table, an unauthenticated request is redirected to the login page while an
authenticated request receives 404 Unknown tradeline, so the two answers
differ and the unauthenticated one is a redirect, not a 404. -/
theorem c3_unknown_slug_auth_dependent :
    tradelinesRoute { accessToken := none, refreshToken := none } "sec" 0
      dbNone "/tradelines/nosuch" "nosuch" = Response.redirect "/login" ∧
    tradelinesRoute { accessToken := some (generateTokens uPortal "sec" 0).1,
                      refreshToken := none } "sec" 0 dbNone
      "/tradelines/nosuch" "nosuch" = Response.status 404 "Unknown tradeline" ∧
    Response.redirect "/login" ≠ Response.status 404 "Unknown tradeline" := by
  decide

/-- C3 (amended): requireAuth runs before the slug lookup, so for a slug
outside the table an authenticated caller receives 404 Unknown tradeline
while an unauthenticated caller (no cookies) never sees the 404: on
tradeline paths, which do not start with /api/, the answer is a redirect
to the login page. -/
theorem c3_unknown_slug_amended (c : Cookies) (secret : String) (now : Nat)
    (db : Nat → Option Identity) (path slug : String) (u : Claims) :
    tradelinePorts.lookup slug = none →
    (verifyToken c.accessToken secret now = some u →
      tradelinesRoute c secret now db path slug =
        Response.status 404 "Unknown tradeline") ∧
    (c.accessToken = none → c.refreshToken = none → isApiPath path = false →
      tradelinesRoute c secret now db path slug = Response.redirect "/login") := by
  intro hslug
  constructor
  · intro hv
    simp [tradelinesRoute, requireAuth, hv, hslug]
  · intro ha hr hp
    simp [tradelinesRoute, requireAuth, ha, hr, verifyToken, rejectAuth, hp]

/-- C3 witness: the amended theorem at the slug nosuch, once authenticated
with a fresh access token and once with no cookies. -/
theorem c3_unknown_slug_witness :
    tradelinesRoute { accessToken := some (generateTokens uPortal "sec" 0).1,
                      refreshToken := none } "sec" 0 dbNone
      "/tradelines/nosuch" "nosuch" = Response.status 404 "Unknown tradeline" ∧
    tradelinesRoute { accessToken := none, refreshToken := none } "sec" 0
      dbNone "/tradelines/nosuch" "nosuch" = Response.redirect "/login" := by
  refine ⟨(c3_unknown_slug_amended _ "sec" 0 dbNone "/tradelines/nosuch"
    "nosuch" (accessClaims uPortal) (by decide)).1 (by decide),
    (c3_unknown_slug_amended { accessToken := none, refreshToken := none }
    "sec" 0 dbNone "/tradelines/nosuch" "nosuch" (accessClaims uPortal)
    (by decide)).2 rfl rfl (by decide)⟩

/-- C4: both admin gates admit an authenticated identity exactly when its
domain is engine or its role is superadmin; a superadmin is admitted
whatever its domain, and a user role with portal domain is answered 403. -/
theorem c4_admin_gate_or (u : Claims) (h : Headers) :
    (requireAdmin (some u) = AdminResult.admitted ↔
      (u.domain = some "engine" ∨ u.role = some "superadmin")) ∧
    (u.role = some "superadmin" → requireAdmin (some u) = AdminResult.admitted) ∧
    (u.role = some "user" → u.domain = some "portal" →
      requireAdmin (some u) = AdminResult.forbidden) ∧
    (h.xGatewayAuth = some "true" →
      (gwRequireAdmin h = AdminResult.admitted ↔
        (h.xUserDomain = some "engine" ∨ h.xUserRole = some "superadmin"))) := by
  refine ⟨?_, ?_, ?_, ?_⟩
  · by_cases hc : u.domain = some "engine" ∨ u.role = some "superadmin" <;>
      simp [requireAdmin, hc]
  · intro hr
    simp [requireAdmin, hr]
  · intro hr hd
    simp [requireAdmin, hr, hd]
  · intro hg
    by_cases hc : h.xUserRole ≠ some "superadmin" ∧ h.xUserDomain ≠ some "engine" <;>
      simp [gwRequireAdmin, getUser, hg, hc]
    all_goals tauto

/-- C4 witness: the gate decisions at a portal user, a portal superadmin
and an engine-domain header set. -/
theorem c4_admin_gate_or_witness :
    requireAdmin (some (accessClaims uPortal)) = AdminResult.forbidden ∧
    requireAdmin (some (accessClaims uSuper)) = AdminResult.admitted ∧
    gwRequireAdmin { xGatewayAuth := some "true", xUserId := some "3",
                     xUserEmail := some "t@nextbid.test", xUserName := some "T",
                     xUserRole := some "user", xUserDomain := some "engine",
                     xCompanyId := some "1" } = AdminResult.admitted := by
  refine ⟨(c4_admin_gate_or (accessClaims uPortal)
      { xGatewayAuth := none, xUserId := none, xUserEmail := none,
        xUserName := none, xUserRole := none, xUserDomain := none,
        xCompanyId := none }).2.2.1 rfl rfl,
    (c4_admin_gate_or (accessClaims uSuper)
      { xGatewayAuth := none, xUserId := none, xUserEmail := none,
        xUserName := none, xUserRole := none, xUserDomain := none,
        xCompanyId := none }).2.1 rfl, ?_⟩
  exact (c4_admin_gate_or (accessClaims uPortal)
    { xGatewayAuth := some "true", xUserId := some "3",
      xUserEmail := some "t@nextbid.test", xUserName := some "T",
      xUserRole := some "user", xUserDomain := some "engine",
      xCompanyId := some "1" }).2.2.2 rfl |>.mpr (Or.inl rfl)

/-- C5: verifying the access token of a freshly issued pair, at any time
before its expiry, returns the access claims, and those claims carry back
the six identity fields unchanged. -/
theorem c5_token_roundtrip (u : Identity) (secret : String) (now t : Nat)
    (h : t < now + 3600) :
    verifyToken (some (generateTokens u secret now).1) secret t =
      some (accessClaims u) ∧
    (accessClaims u).id = some u.id ∧
    (accessClaims u).email = some u.email ∧
    (accessClaims u).name = some u.name ∧
    (accessClaims u).company_id = some u.company_id ∧
    (accessClaims u).domain = some u.domain ∧
    (accessClaims u).role = some u.role := by
  refine ⟨?_, rfl, rfl, rfl, rfl, rfl, rfl⟩
  simp [generateTokens, verifyToken, h]

/-- C5 witness: the round trip at the sample portal user, verified at time
100 against issuance at time 0. -/
theorem c5_token_roundtrip_witness :
    verifyToken (some (generateTokens uPortal "sec" 0).1) "sec" 100 =
      some (accessClaims uPortal) ∧
    (accessClaims uPortal).id = some uPortal.id ∧
    (accessClaims uPortal).email = some uPortal.email := by
  obtain ⟨h1, h2, h3, _⟩ := c5_token_roundtrip uPortal "sec" 0 100 (by decide)
  exact ⟨h1, h2, h3⟩

/-- C6: requireAuth rewrites the auth cookies exactly on a refresh: when
the presented access token verifies it is returned as is with no cookie
write, and when the access token fails but the refresh token verifies with
type refresh and the directory returns an active user, the result carries
the freshly issued pair written to both cookies. -/
theorem c6_cookie_rewrite_iff_refresh (c : Cookies) (secret : String)
    (now : Nat) (db : Nat → Option Identity) (path : String) :
    (∀ u, verifyToken c.accessToken secret now = some u →
      requireAuth c secret now db path = AuthResult.ok u none) ∧
    (∀ rt rp dbUser, verifyToken c.accessToken secret now = none →
      c.refreshToken = some rt →
      verifyToken (some rt) secret now = some rp →
      rp.type = some "refresh" →
      rp.id.bind db = some dbUser →
      requireAuth c secret now db path =
        AuthResult.ok (accessClaims dbUser)
          (some (generateTokens dbUser secret now))) := by
  constructor
  · intro u hu
    simp [requireAuth, hu]
  · intro rt rp dbUser h1 h2 h3 h4 h5
    unfold requireAuth
    rw [h1, h2]
    dsimp only
    rw [h3]
    dsimp only
    rw [h4]
    simp only [if_true, h5, generateTokens, verifyToken]
    simp

/-- C6 witness: with a fresh access token no cookies are rewritten; with
only a fresh refresh token both cookies are replaced by a new pair. -/
theorem c6_cookie_rewrite_witness :
    requireAuth { accessToken := some (generateTokens uPortal "sec" 0).1,
                  refreshToken := none } "sec" 0 dbAlice "/profile" =
      AuthResult.ok (accessClaims uPortal) none ∧
    requireAuth { accessToken := none,
                  refreshToken := some (generateTokens uPortal "sec" 0).2 }
      "sec" 0 dbAlice "/profile" =
      AuthResult.ok (accessClaims uPortal)
        (some (generateTokens uPortal "sec" 0)) := by
  refine ⟨(c6_cookie_rewrite_iff_refresh
      { accessToken := some (generateTokens uPortal "sec" 0).1,
        refreshToken := none } "sec" 0 dbAlice "/profile").1
      (accessClaims uPortal) (by decide), ?_⟩
  exact (c6_cookie_rewrite_iff_refresh
    { accessToken := none,
      refreshToken := some (generateTokens uPortal "sec" 0).2 }
    "sec" 0 dbAlice "/profile").2 (generateTokens uPortal "sec" 0).2
    (refreshClaims uPortal.id) uPortal rfl rfl (by decide) rfl (by decide)

/-- C8: verifyToken is a total function into an Option: a missing token, a
malformed token, a wrongly signed token and an expired token all return
the very same value none, and every token either fails to none or is a
well signed unexpired token whose claims are returned. -/
theorem c8_verify_uniform_null (secret : String) (now : Nat) :
    verifyToken none secret now = none ∧
    (∀ raw, verifyToken (some (Token.malformed raw)) secret now = none) ∧
    (∀ cl s e, s ≠ secret →
      verifyToken (some (Token.signed cl s e)) secret now = none) ∧
    (∀ cl e, ¬ now < e →
      verifyToken (some (Token.signed cl secret e)) secret now = none) ∧
    (∀ tok, verifyToken tok secret now = none ∨
      ∃ cl s e, tok = some (Token.signed cl s e) ∧ s = secret ∧ now < e ∧
        verifyToken tok secret now = some cl) := by
  refine ⟨rfl, fun raw => rfl, ?_, ?_, ?_⟩
  · intro cl s e hs
    simp [verifyToken, hs]
  · intro cl e he
    simp [verifyToken, he]
  · intro tok
    match tok with
    | none => exact Or.inl rfl
    | some (Token.malformed raw) => exact Or.inl rfl
    | some (Token.signed cl s e) =>
      by_cases h : s = secret ∧ now < e
      · exact Or.inr ⟨cl, s, e, rfl, h.1, h.2, by simp [verifyToken, h]⟩
      · exact Or.inl (by simp [verifyToken, h])

/-- C8 witness: the uniform none result evaluated on a missing token, a
malformed token, a wrongly signed token and an expired token. -/
theorem c8_verify_uniform_null_witness :
    verifyToken none "sec" 0 = none ∧
    verifyToken (some (Token.malformed "notajwt")) "sec" 0 = none ∧
    verifyToken (some (Token.signed (accessClaims uPortal) "other" 99))
      "sec" 0 = none ∧
    verifyToken (some (Token.signed (accessClaims uPortal) "sec" 3600))
      "sec" 5000 = none := by
  obtain ⟨h1, h2, h3, _, _⟩ := c8_verify_uniform_null "sec" 0
  refine ⟨h1, h2 "notajwt", h3 (accessClaims uPortal) "other" 99 (by decide), ?_⟩
  exact (c8_verify_uniform_null "sec" 5000).2.2.2.1 (accessClaims uPortal)
    3600 (by omega)

/-- C9: the internal credentials endpoint answers 401 whenever the shared
secret header differs from the internal key, independent of the stored
rows; with a matching key it answers 404 when no row exists for the
company and source, and otherwise returns the stored username, password
and api key of that row. -/
theorem c9_credentials_api_responses (headerApiKey internalApiKey : Option String)
    (lookup : String → String → Option CredRow) (companyId source : String) :
    (headerApiKey ≠ internalApiKey →
      apiCredentials headerApiKey internalApiKey lookup companyId source =
        ApiResp.status 401 "Invalid API key") ∧
    (headerApiKey = internalApiKey → lookup companyId source = none →
      apiCredentials headerApiKey internalApiKey lookup companyId source =
        ApiResp.status 404 "Credentials not found") ∧
    (∀ r, headerApiKey = internalApiKey → lookup companyId source = some r →
      apiCredentials headerApiKey internalApiKey lookup companyId source =
        ApiResp.credsOk source r.username r.password_encrypted
          r.api_key_encrypted) := by
  refine ⟨fun h => by simp [apiCredentials, h],
    fun h hl => by simp [apiCredentials, h, hl],
    fun r h hl => by simp [apiCredentials, h, hl]⟩

/-- C9 witness: the three answers evaluated against the sample store. -/
theorem c9_credentials_api_witness :
    apiCredentials none (some "ikey") lookupC1 "c1" "sam_gov" =
      ApiResp.status 401 "Invalid API key" ∧
    apiCredentials (some "ikey") (some "ikey") lookupC1 "c2" "sam_gov" =
      ApiResp.status 404 "Credentials not found" ∧
    apiCredentials (some "ikey") (some "ikey") lookupC1 "c1" "sam_gov" =
      ApiResp.credsOk "sam_gov" (some "user1") (some "pw1") (some "key1") := by
  refine ⟨(c9_credentials_api_responses none (some "ikey") lookupC1 "c1"
      "sam_gov").1 (by decide),
    (c9_credentials_api_responses (some "ikey") (some "ikey") lookupC1 "c2"
      "sam_gov").2.1 rfl (by decide), ?_⟩
  exact (c9_credentials_api_responses (some "ikey") (some "ikey") lookupC1
    "c1" "sam_gov").2.2 freshCred rfl (by decide)

/-- C10: the login endpoint renders the same page with the same message
for an unknown or inactive email and for a known active email with a wrong
password, so the two failure runs are observably identical. -/
theorem c10_login_failure_indistinguishable (db : String → Option UserRec)
    (checkPw : String → String → Bool) (secret : String) (now : Nat)
    (e1 p1 e2 p2 : String) (u : UserRec) :
    db (lowerString e1) = none →
    db (lowerString e2) = some u →
    checkPw p2 u.password_hash = false →
    postLogin db checkPw secret now e1 p1 =
      LoginResp.renderLogin (some "Invalid email or password") ∧
    postLogin db checkPw secret now e2 p2 =
      LoginResp.renderLogin (some "Invalid email or password") ∧
    postLogin db checkPw secret now e1 p1 =
      postLogin db checkPw secret now e2 p2 := by
  intro h1 h2 h3
  refine ⟨by simp [postLogin, h1], by simp [postLogin, h2, h3], ?_⟩
  simp [postLogin, h1, h2, h3]

/-- C10 witness: an unknown email and a known email with a rejected
password produce the identical login failure page. -/
theorem c10_login_failure_witness :
    postLogin dbBob pwNever "sec" 0 "ghost@nextbid.test" "pw" =
      LoginResp.renderLogin (some "Invalid email or password") ∧
    postLogin dbBob pwNever "sec" 0 "Bob@NextBid.test" "wrongpw" =
      LoginResp.renderLogin (some "Invalid email or password") ∧
    postLogin dbBob pwNever "sec" 0 "ghost@nextbid.test" "pw" =
      postLogin dbBob pwNever "sec" 0 "Bob@NextBid.test" "wrongpw" := by
  exact c10_login_failure_indistinguishable dbBob pwNever "sec" 0
    "ghost@nextbid.test" "pw" "Bob@NextBid.test" "wrongpw" bobRec
    (by decide) (by decide) rfl
